import Mathlib

/-!
Verification of the Ouroboros desktop supervisor (src/app.py) and its
safety gate (src/ouroboros/safety.py) against the natural-language
specification.  The Python source is shallowly embedded: pure string
manipulation becomes functions on `List Char`, the stateful supervisor
loop becomes explicit state passing over a `World` record, and every
externally visible action (chat sends, worker kills, process exit,
re-exec, snapshot writes) is recorded in an effect trace.  Outcomes of
the two LLM calls inside the safety gate are supplied as oracle values
covering every branch the code distinguishes (call raised, response not
parseable as JSON, parsed JSON with a `status` field).
-/

namespace Ouroboros

/-! ## Python string primitives

The supervisor manipulates text with `str.lower`, `str.strip`,
`str.startswith`, `str.split()` and slicing.  They are embedded as
functions on the character list of a `String`. -/

/-- Python `s.lower()` (ASCII case folding, which is all the source uses). -/
def pyLower (s : String) : String := ⟨s.data.map Char.toLower⟩

/-- Python `s.strip()`: drop whitespace from both ends. -/
def pyStrip (s : String) : String :=
  ⟨(((s.data.dropWhile Char.isWhitespace).reverse).dropWhile Char.isWhitespace).reverse⟩

/-- Python `s.startswith(p)`. -/
def pyStartswith (s p : String) : Bool := p.data.isPrefixOf s.data

/-- Helper for Python `s.split()`: accumulate maximal runs of
non-whitespace characters. -/
def wordsAux : List Char → List Char → List String
  | [], acc => if acc.isEmpty then [] else [⟨acc.reverse⟩]
  | c :: cs, acc =>
      if c.isWhitespace then
        if acc.isEmpty then wordsAux cs [] else ⟨acc.reverse⟩ :: wordsAux cs []
      else wordsAux cs (c :: acc)

/-- Python `s.split()` with no argument: split on whitespace runs,
discarding empty fields. -/
def pySplitWs (s : String) : List String := wordsAux s.data []

/-- Python `s[:n]`. -/
def pyTake (s : String) (n : Nat) : String := ⟨s.data.take n⟩

/-! ## Safety gate (src/ouroboros/safety.py, `check_safety`)

`client.chat` is an external LLM call; each of the two calls is embedded
as an oracle value of type `CheckOutcome`, which distinguishes exactly
the cases the code's control flow distinguishes:

* the call raised an exception (outer `except Exception` branches);
* the call returned a message whose content failed `json.loads`
  (`except json.JSONDecodeError` branches) — a response parsing to a
  non-dict JSON value raises `AttributeError` at `result.get`, which the
  inner handler does not catch, so it lands in the same observable
  behaviour as `exn` at both tiers;
* the call returned JSON that parsed to a dict, with its `status` field
  (`none` models an absent key) and optional `reason` field.

`hasUsage` records whether `client.chat` returned a truthy usage record,
which triggers `update_budget_from_usage`. -/

inductive ParseResult where
  | parseFail : ParseResult
  | parsed (status : Option String) (reason : Option String) : ParseResult
deriving DecidableEq, Repr

inductive CheckOutcome where
  | exn (e : String) : CheckOutcome
  | ok (hasUsage : Bool) (parse : ParseResult) : CheckOutcome
deriving DecidableEq, Repr

/-- Observable outcome of one `check_safety` run: the returned pair
`(allow, reason)` plus whether each LLM tier was invoked and how many
`update_budget_from_usage` calls were made. -/
structure SafetyTrace where
  allow : Bool
  reason : String
  fastCalled : Bool
  deepCalled : Bool
  budgetUpdates : Nat
deriving DecidableEq, Repr

/-- Number of budget updates one LLM call contributes (`if usage:
update_budget_from_usage(usage)`; skipped when the call raised). -/
def budgetOf : CheckOutcome → Nat
  | .exn _ => 0
  | .ok hasUsage _ => if hasUsage then 1 else 0

/-- The list literal at safety.py line 40. -/
def mutatingTools : List String :=
  ["run_shell", "claude_code_edit", "repo_write_commit", "repo_commit", "drive_write"]

/-- safety.py `check_safety(tool_name, arguments)`.  `arguments` only
feeds the prompt handed to the LLM, so its influence is carried by the
two oracles `fast` and `deep`. -/
def check_safety (tool_name : String) (arguments : List (String × String))
    (fast deep : CheckOutcome) : SafetyTrace :=
  if ¬ mutatingTools.contains tool_name then
    { allow := true, reason := "", fastCalled := false, deepCalled := false,
      budgetUpdates := 0 }
  else
    let _ := arguments
    let fb := budgetOf fast
    match fast with
    | .ok hu (.parsed (some "SAFE") _) =>
        { allow := true, reason := "", fastCalled := true, deepCalled := false,
          budgetUpdates := if hu then 1 else 0 }
    | _ =>
        -- fast check flagged the call, was unparseable, or raised:
        -- escalate to the deep check.
        let db := budgetOf deep
        match deep with
        | .exn e =>
            { allow := false,
              reason := "⚠️ SAFETY_VIOLATION: Safety check failed with error: " ++ e,
              fastCalled := true, deepCalled := true, budgetUpdates := fb }
        | .ok _ .parseFail =>
            { allow := false,
              reason := "⚠️ SAFETY_VIOLATION: Safety Supervisor failed to parse JSON.",
              fastCalled := true, deepCalled := true, budgetUpdates := fb + db }
        | .ok _ (.parsed status reason) =>
            if status = some "SAFE" then
              { allow := true, reason := "", fastCalled := true, deepCalled := true,
                budgetUpdates := fb + db }
            else
              { allow := false,
                reason := "⚠️ SAFETY_VIOLATION: The Safety Supervisor blocked this command.\nReason: "
                  ++ reason.getD "Unknown danger"
                  ++ "\n\nYou must find a different, safer approach to achieve your goal.",
                fastCalled := true, deepCalled := true, budgetUpdates := fb + db }

/-! ## Supervisor loop (src/app.py, `run_supervisor`)

The per-tick body of the `while True:` loop (app.py lines 231–349) is
embedded as a state-transition function over a `World` record plus an
effect trace.  External collaborators that live outside src/
(`supervisor.telegram`, `supervisor.queue`, `supervisor.workers`,
`supervisor.git_ops`, the consciousness thread) appear either as oracle
fields of `Env` (their return values) or as trace entries in `Eff`
(their invocations). -/

/-- A pending task as the supervisor sees it: a dict with at least a
`type` field (app.py reads `str(t.get("type"))`), a priority and a
creation time used for queue ordering. -/
structure Task where
  id : String
  type : String
  priority : Int
  created_at : String
deriving DecidableEq, Repr

/-- Key order on pending tasks: smaller `priority` first, ties broken by
`created_at`. -/
def taskLE (a b : Task) : Bool :=
  if a.priority < b.priority then true
  else if a.priority = b.priority then a.created_at ≤ b.created_at
  else false

/-- Insert a task in front of the first element it precedes. -/
def insertTask (t : Task) : List Task → List Task
  | [] => [t]
  | u :: us => if taskLE t u then t :: u :: us else u :: insertTask t us

/-- Modelled from the spec: `sort_pending` (from `supervisor.queue`,
not under src/): the spec (§3, §4.C) orders the pending list by
`(priority, created_at)`, smaller priority first, ties broken by
creation time.  Stable insertion sort on that key. -/
def sort_pending : List Task → List Task
  | [] => []
  | t :: ts => insertTask t (sort_pending ts)

/-- The fields of the persisted state dict that the supervisor loop
reads or writes (app.py lines 261–309). -/
structure SupState where
  owner_id : Option Nat := none
  owner_chat_id : Option Nat := none
  last_owner_message_at : Option String := none
  evolution_mode_enabled : Bool := true
deriving DecidableEq, Repr

/-- Supervisor-owned mutable data touched by the loop: persisted state
and the shared `PENDING` list. -/
structure World where
  st : SupState
  pending : List Task := []
deriving DecidableEq, Repr

/-- One inbound chat update's message.  The transport-side sender chat
id is carried for specification purposes; app.py never reads it (it
fixes `chat_id = 1`, the local bridge's single conversation). -/
structure Msg where
  senderChatId : Nat
  text : String
deriving DecidableEq, Repr

/-- Oracle values for the external calls the message router makes. -/
structure Env where
  nowIso : String := "2026-01-01T00:00:00+00:00"
  safeRestartOk : Bool := true
  safeRestartMsg : String := ""
  consciousnessRunning : Bool := true
  consciousnessStartMsg : String := "started"
  consciousnessStopMsg : String := "stopped"
  agentBusy : Bool := false
deriving DecidableEq, Repr

/-- Externally visible actions of one supervisor tick, in program
order. -/
inductive Eff where
  | rotateChatLog
  | ensureHealthy
  | dispatchEvent
  | enforceTimeouts
  | enqueueEvolution
  | assignTasks
  | persistSnapshot (reason : String)
  | logChat (dir : String) (chatId userId : Nat) (text : String)
  | send (chatId : Nat) (text : String)
  | sendStatus (chatId : Nat)
  | killWorkers
  | exitProcess (code : Nat)
  | execRestart
  | safeRestartCall (reason policy : String)
  | queueReview (reason : String) (force : Bool)
  | consciousnessStart
  | consciousnessStop
  | injectObservation (text : String)
  | spawnChatTask (chatId : Nat) (text : String)
  | injectMessage (text : String)
deriving DecidableEq, Repr

/-- Result of processing one update (or one whole tick): the new world,
the emitted effects, whether `os._exit` ran (with its code), and whether
`os.execv` replaced the process. -/
structure StepRes where
  world : World
  effs : List Eff
  exited : Option Nat
  execed : Bool
deriving DecidableEq, Repr

/-- app.py lines 250–347: the body of `for upd in updates:` for a single
update.  `none` models an update without a `message` field
(`if not msg: continue`). -/
def processUpdate (env : Env) (w : World) (upd : Option Msg) : StepRes :=
  match upd with
  | none => ⟨w, [], none, false⟩
  | some m =>
    let chat_id : Nat := 1
    let user_id : Nat := 1
    let text := m.text
    let st := w.st
    if st.owner_id = none then
      -- first contact: register the sender as owner and stop (lines 262–270)
      let st1 := { st with owner_id := some user_id, owner_chat_id := some chat_id,
                           last_owner_message_at := some env.nowIso }
      ⟨{ w with st := st1 },
       [.logChat "in" chat_id user_id text,
        .send chat_id "✅ Owner registered. Ouroboros online."], none, false⟩
    else
      let st1 := { st with last_owner_message_at := some env.nowIso }
      let w1 : World := { w with st := st1 }
      let pre : List Eff := [.logChat "in" chat_id user_id text]
      if text = "" then ⟨w1, pre, none, false⟩
      else
        let lowered := pyLower (pyStrip text)
        if pyStartswith lowered "/panic" then
          ⟨w1, pre ++ [.send chat_id "🛑 PANIC: stopping everything now.",
                       .killWorkers, .exitProcess 1], some 1, false⟩
        else if pyStartswith lowered "/restart" then
          if env.safeRestartOk then
            ⟨w1, pre ++ [.send chat_id "♻️ Restarting (soft).",
                         .safeRestartCall "owner_restart" "rescue_and_reset",
                         .killWorkers, .execRestart], none, true⟩
          else
            ⟨w1, pre ++ [.send chat_id "♻️ Restarting (soft).",
                         .safeRestartCall "owner_restart" "rescue_and_reset",
                         .send chat_id ("⚠️ Restart cancelled: " ++ env.safeRestartMsg)],
             none, false⟩
        else if pyStartswith lowered "/review" then
          ⟨w1, pre ++ [.queueReview "owner:/review" true], none, false⟩
        else if pyStartswith lowered "/evolve" then
          let parts := pySplitWs lowered
          let action := (parts.drop 1).headD "on"
          let turn_on : Bool := !(action == "off" || action == "stop" || action == "0")
          let w2 : World := { w1 with st := { w1.st with evolution_mode_enabled := turn_on } }
          if turn_on then
            ⟨w2, pre ++ [.send chat_id "🧬 Evolution: ON"], none, false⟩
          else
            let newPending := sort_pending (w2.pending.filter (fun t => t.type ≠ "evolution"))
            let w3 : World := { w2 with pending := newPending }
            ⟨w3, pre ++ [.persistSnapshot "evolve_off",
                         .send chat_id "🧬 Evolution: OFF"], none, false⟩
        else if pyStartswith lowered "/bg" then
          let parts := pySplitWs lowered
          let action := (parts.drop 1).headD "status"
          if action = "start" ∨ action = "on" ∨ action = "1" then
            ⟨w1, pre ++ [.consciousnessStart,
                         .send chat_id ("🧠 " ++ env.consciousnessStartMsg)], none, false⟩
          else if action = "stop" ∨ action = "off" ∨ action = "0" then
            ⟨w1, pre ++ [.consciousnessStop,
                         .send chat_id ("🧠 " ++ env.consciousnessStopMsg)], none, false⟩
          else
            let bg := if env.consciousnessRunning then "running" else "stopped"
            ⟨w1, pre ++ [.send chat_id ("🧠 Background consciousness: " ++ bg)], none, false⟩
        else if pyStartswith lowered "/status" then
          ⟨w1, pre ++ [.sendStatus chat_id], none, false⟩
        else
          let tail := if env.agentBusy then [Eff.injectMessage text]
                      else [Eff.spawnChatTask chat_id text]
          ⟨w1, pre ++ [.injectObservation ("Owner message: " ++ pyTake text 100)] ++ tail,
           none, false⟩

/-- The `for upd in updates:` loop.  `os._exit(1)` and `os.execv` never
return, so processing of the remaining updates is cut off there. -/
def processUpdates (env : Env) (w : World) : List (Option Msg) → StepRes
  | [] => ⟨w, [], none, false⟩
  | u :: us =>
      let r := processUpdate env w u
      if r.exited.isSome ∨ r.execed then r
      else
        let rest := processUpdates env r.world us
        ⟨rest.world, r.effs ++ rest.effs, rest.exited, rest.execed⟩

/-- Per-tick external input: how many events sit in the event bus and
which chat updates `get_updates` returns. -/
structure TickInput where
  events : Nat
  inbox : List (Option Msg)
deriving DecidableEq, Repr

/-- One iteration of the main supervisor loop (app.py lines 232–349):
log rotation and worker-health check, then the six phases — drain the
event bus, enforce timeouts, maybe enqueue an evolution task, assign
tasks, persist the queue snapshot, drain and route the chat inbox. -/
def tick (env : Env) (w : World) (inp : TickInput) : StepRes :=
  let pre : List Eff :=
    [.rotateChatLog, .ensureHealthy] ++ List.replicate inp.events .dispatchEvent
      ++ [.enforceTimeouts, .enqueueEvolution, .assignTasks, .persistSnapshot "main_loop"]
  let r := processUpdates env w inp.inbox
  ⟨r.world, pre ++ r.effs, r.exited, r.execed⟩

/-- Which of the spec's six numbered tick phases an effect belongs to
(0 for the pre-phase housekeeping steps). -/
def phaseIdx : Eff → Nat
  | .rotateChatLog => 0
  | .ensureHealthy => 0
  | .dispatchEvent => 1
  | .enforceTimeouts => 2
  | .enqueueEvolution => 3
  | .assignTasks => 4
  | .persistSnapshot r => if r = "main_loop" then 5 else 6
  | _ => 6

/-! ## String lemmas -/

theorem strData_append (a b : String) : (a ++ b).data = a.data ++ b.data := by
  obtain ⟨la⟩ := a
  obtain ⟨lb⟩ := b
  rfl

theorem strAppend_assoc (a b c : String) : a ++ b ++ c = a ++ (b ++ c) := by
  obtain ⟨la⟩ := a
  obtain ⟨lb⟩ := b
  obtain ⟨lc⟩ := c
  exact congrArg String.mk (List.append_assoc la lb lc)

theorem strAppend_ne_empty_left (a b : String) (ha : a.data ≠ []) : a ++ b ≠ "" := by
  intro h
  apply ha
  have hd := congrArg String.data h
  rw [strData_append] at hd
  exact (List.append_eq_nil.mp hd).1

theorem strAppApp_ne_empty (a b c : String) (ha : a.data ≠ []) : a ++ b ++ c ≠ "" := by
  intro h
  apply ha
  have hd := congrArg String.data h
  rw [strData_append, strData_append] at hd
  exact (List.append_eq_nil.mp (List.append_eq_nil.mp hd).1).1

/-! ## Safety-gate lemmas and claims -/

/-- Did an LLM call come back as a parsed JSON dict whose `status` field
equals `"SAFE"`?  (The only outcome the fast tier accepts.) -/
def parsedSafe : CheckOutcome → Bool
  | .ok _ (.parsed (some "SAFE") _) => true
  | _ => false

/-- Stated from the spec's words (§4.G): the two-tier escalation
protocol.  Fast check SAFE ⇒ allow, no deep check; otherwise the deep
check runs and its SAFE means allow, anything else means deny.  Returns
`(allowed?, deep check ran?)`. -/
def spec_two_tier (fast deep : CheckOutcome) : Bool × Bool :=
  if parsedSafe fast then (true, false)
  else if parsedSafe deep then (true, true)
  else (false, true)

theorem parsedSafe_false (o : CheckOutcome)
    (h : ∀ (hu : Bool) (r : Option String), o ≠ .ok hu (.parsed (some "SAFE") r)) :
    parsedSafe o = false := by
  unfold parsedSafe
  split
  · exact absurd rfl (h _ _)
  · rfl

theorem cs_fastSafe (tool : String) (args : List (String × String))
    (fast deep : CheckOutcome) (hm : mutatingTools.contains tool = true)
    (hf : parsedSafe fast = true) :
    check_safety tool args fast deep =
      { allow := true, reason := "", fastCalled := true, deepCalled := false,
        budgetUpdates := budgetOf fast } := by
  unfold parsedSafe at hf
  split at hf
  · unfold check_safety
    rw [if_neg (not_not_intro hm)]
    rfl
  · exact absurd hf (by simp)

theorem cs_deep_exn (tool : String) (args : List (String × String))
    (fast : CheckOutcome) (e : String) (hm : mutatingTools.contains tool = true)
    (hf : parsedSafe fast = false) :
    check_safety tool args fast (.exn e) =
      { allow := false,
        reason := "⚠️ SAFETY_VIOLATION: Safety check failed with error: " ++ e,
        fastCalled := true, deepCalled := true, budgetUpdates := budgetOf fast } := by
  unfold check_safety
  rw [if_neg (not_not_intro hm)]
  split
  · exact absurd hf (by simp [parsedSafe])
  · rfl

theorem cs_deep_parseFail (tool : String) (args : List (String × String))
    (fast : CheckOutcome) (hu : Bool) (hm : mutatingTools.contains tool = true)
    (hf : parsedSafe fast = false) :
    check_safety tool args fast (.ok hu .parseFail) =
      { allow := false,
        reason := "⚠️ SAFETY_VIOLATION: Safety Supervisor failed to parse JSON.",
        fastCalled := true, deepCalled := true,
        budgetUpdates := budgetOf fast + budgetOf (.ok hu .parseFail) } := by
  unfold check_safety
  rw [if_neg (not_not_intro hm)]
  split
  · exact absurd hf (by simp [parsedSafe])
  · rfl

theorem cs_deep_safe (tool : String) (args : List (String × String))
    (fast : CheckOutcome) (hu : Bool) (r : Option String)
    (hm : mutatingTools.contains tool = true) (hf : parsedSafe fast = false) :
    check_safety tool args fast (.ok hu (.parsed (some "SAFE") r)) =
      { allow := true, reason := "", fastCalled := true, deepCalled := true,
        budgetUpdates := budgetOf fast + budgetOf (.ok hu (.parsed (some "SAFE") r)) } := by
  unfold check_safety
  rw [if_neg (not_not_intro hm)]
  split
  · exact absurd hf (by simp [parsedSafe])
  · dsimp only
    rw [if_pos rfl]

theorem cs_deep_deny (tool : String) (args : List (String × String))
    (fast : CheckOutcome) (hu : Bool) (status r : Option String)
    (hm : mutatingTools.contains tool = true) (hf : parsedSafe fast = false)
    (hs : status ≠ some "SAFE") :
    check_safety tool args fast (.ok hu (.parsed status r)) =
      { allow := false,
        reason := "⚠️ SAFETY_VIOLATION: The Safety Supervisor blocked this command.\nReason: "
          ++ r.getD "Unknown danger"
          ++ "\n\nYou must find a different, safer approach to achieve your goal.",
        fastCalled := true, deepCalled := true,
        budgetUpdates := budgetOf fast + budgetOf (.ok hu (.parsed status r)) } := by
  unfold check_safety
  rw [if_neg (not_not_intro hm)]
  split
  · exact absurd hf (by simp [parsedSafe])
  · dsimp only
    rw [if_neg hs]

theorem spec_two_tier_escalate (fast deep : CheckOutcome)
    (hf : parsedSafe fast = false) :
    spec_two_tier fast deep =
      if parsedSafe deep then (true, true) else (false, true) := by
  unfold spec_two_tier
  rw [hf]
  simp

/-- C1 (counterexample): the code's mutating set names the code-edit
tool `claude_code_edit`, not `code_edit`; a tool call named `code_edit`
is allowed unconditionally, with no LLM call, even when both safety
models would flag it as dangerous. -/
theorem code_edit_bypasses_gate :
    (check_safety "code_edit" [("path", "BIBLE.md")]
      (.ok true (.parsed (some "DANGEROUS") (some "protected file")))
      (.ok true (.parsed (some "DANGEROUS") (some "protected file")))).allow = true
    ∧ (check_safety "code_edit" [("path", "BIBLE.md")]
      (.ok true (.parsed (some "DANGEROUS") (some "protected file")))
      (.ok true (.parsed (some "DANGEROUS") (some "protected file")))).fastCalled = false := by
  decide

/-- C1 (amended): for every tool call whose name is not in the code's
mutating set {run_shell, claude_code_edit, repo_write_commit,
repo_commit, drive_write}, `check_safety` returns allow (true with
empty reason) without any LLM call or budget update; every tool call
whose name is in that set is submitted to the LLM check protocol (the
fast check always runs — never allowed unconditionally). -/
theorem gate_scope (tool : String) (args : List (String × String))
    (fast deep : CheckOutcome) :
    (mutatingTools.contains tool = false →
      check_safety tool args fast deep =
        { allow := true, reason := "", fastCalled := false, deepCalled := false,
          budgetUpdates := 0 })
    ∧ (mutatingTools.contains tool = true →
        (check_safety tool args fast deep).fastCalled = true) := by
  constructor
  · intro h
    unfold check_safety
    rw [if_pos (by rw [h]; exact Bool.false_ne_true)]
  · intro h
    cases hf : parsedSafe fast
    · rcases deep with e | ⟨hu, pr⟩
      · rw [cs_deep_exn tool args fast e h hf]
      · rcases pr with _ | ⟨status, reason⟩
        · rw [cs_deep_parseFail tool args fast hu h hf]
        · by_cases hs : status = some "SAFE"
          · subst hs
            rw [cs_deep_safe tool args fast hu reason h hf]
          · rw [cs_deep_deny tool args fast hu status reason h hf hs]
    · rw [cs_fastSafe tool args fast deep h hf]

/-- C1 witness: a non-mutating tool (`web_search`) passes through
unchecked; a mutating tool (`run_shell`) reaches the fast LLM check. -/
theorem gate_scope_witness :
    check_safety "web_search" [] (.exn "boom") (.exn "boom") =
      { allow := true, reason := "", fastCalled := false, deepCalled := false,
        budgetUpdates := 0 }
    ∧ (check_safety "run_shell" [] (.exn "boom") (.exn "boom")).fastCalled = true :=
  ⟨(gate_scope "web_search" [] (.exn "boom") (.exn "boom")).1 (by decide),
   (gate_scope "run_shell" [] (.exn "boom") (.exn "boom")).2 (by decide)⟩

/-- C2: on a mutating tool call, `check_safety` follows the spec's
two-tier escalation protocol — fast check parsed SAFE ⇒ allow without a
deep check; any other fast outcome (flagged, unparseable, raised) ⇒ the
deep check runs; deep SAFE ⇒ allow; everything else ⇒ deny, and a deny
always carries a non-empty reason.  In particular the fast check alone
never produces a deny (deny implies the deep check ran). -/
theorem two_tier_escalation (tool : String) (args : List (String × String))
    (fast deep : CheckOutcome) (hm : mutatingTools.contains tool = true) :
    ((check_safety tool args fast deep).allow,
      (check_safety tool args fast deep).deepCalled) = spec_two_tier fast deep
    ∧ ((check_safety tool args fast deep).allow = false →
        (check_safety tool args fast deep).reason ≠ "") := by
  cases hf : parsedSafe fast
  · rw [spec_two_tier_escalate fast deep hf]
    rcases deep with e | ⟨hu, pr⟩
    · rw [cs_deep_exn tool args fast e hm hf]
      exact ⟨rfl, fun _ => strAppend_ne_empty_left _ _ (by decide)⟩
    · rcases pr with _ | ⟨status, reason⟩
      · rw [cs_deep_parseFail tool args fast hu hm hf]
        have hlit : ("⚠️ SAFETY_VIOLATION: Safety Supervisor failed to parse JSON." : String) ≠ "" := by
          decide
        exact ⟨rfl, fun _ => hlit⟩
      · by_cases hs : status = some "SAFE"
        · subst hs
          rw [cs_deep_safe tool args fast hu reason hm hf]
          exact ⟨rfl, by simp⟩
        · rw [cs_deep_deny tool args fast hu status reason hm hf hs]
          have hps : parsedSafe (CheckOutcome.ok hu (.parsed status reason)) = false := by
            apply parsedSafe_false
            intro hu' r' he
            simp only [CheckOutcome.ok.injEq, ParseResult.parsed.injEq] at he
            exact hs he.2.1
          rw [hps]
          exact ⟨rfl, fun _ => strAppApp_ne_empty _ _ _ (by decide)⟩
  · rw [cs_fastSafe tool args fast deep hm hf]
    unfold spec_two_tier
    rw [hf]
    exact ⟨rfl, by simp⟩

/-- C2 witness: `run_shell` with an unparseable fast response and a
deep response flagging danger. -/
theorem two_tier_escalation_witness :
    ((check_safety "run_shell" [("cmd", "rm -rf /")] (.ok true .parseFail)
        (.ok true (.parsed (some "DANGEROUS") (some "destructive")))).allow,
      (check_safety "run_shell" [("cmd", "rm -rf /")] (.ok true .parseFail)
        (.ok true (.parsed (some "DANGEROUS") (some "destructive")))).deepCalled) =
      spec_two_tier (.ok true .parseFail)
        (.ok true (.parsed (some "DANGEROUS") (some "destructive")))
    ∧ ((check_safety "run_shell" [("cmd", "rm -rf /")] (.ok true .parseFail)
        (.ok true (.parsed (some "DANGEROUS") (some "destructive")))).allow = false →
        (check_safety "run_shell" [("cmd", "rm -rf /")] (.ok true .parseFail)
          (.ok true (.parsed (some "DANGEROUS") (some "destructive")))).reason ≠ "") :=
  two_tier_escalation "run_shell" [("cmd", "rm -rf /")] (.ok true .parseFail)
    (.ok true (.parsed (some "DANGEROUS") (some "destructive"))) (by decide)

/-- C3: `check_safety` is total on mutating tool calls — whatever the
two LLM oracles do (SAFE, flagged, unparseable, raised), it returns
exactly one of allow (with empty reason) or deny (with a non-empty
reason). -/
theorem safety_gate_total (tool : String) (args : List (String × String))
    (fast deep : CheckOutcome) (hm : mutatingTools.contains tool = true) :
    ((check_safety tool args fast deep).allow = true
        ∧ (check_safety tool args fast deep).reason = "")
    ∨ ((check_safety tool args fast deep).allow = false
        ∧ (check_safety tool args fast deep).reason ≠ "") := by
  cases hf : parsedSafe fast
  · rcases deep with e | ⟨hu, pr⟩
    · rw [cs_deep_exn tool args fast e hm hf]
      exact Or.inr ⟨rfl, strAppend_ne_empty_left _ _ (by decide)⟩
    · rcases pr with _ | ⟨status, reason⟩
      · rw [cs_deep_parseFail tool args fast hu hm hf]
        have hlit : ("⚠️ SAFETY_VIOLATION: Safety Supervisor failed to parse JSON." : String) ≠ "" := by
          decide
        exact Or.inr ⟨rfl, hlit⟩
      · by_cases hs : status = some "SAFE"
        · subst hs
          rw [cs_deep_safe tool args fast hu reason hm hf]
          exact Or.inl ⟨rfl, rfl⟩
        · rw [cs_deep_deny tool args fast hu status reason hm hf hs]
          exact Or.inr ⟨rfl, strAppApp_ne_empty _ _ _ (by decide)⟩
  · rw [cs_fastSafe tool args fast deep hm hf]
    exact Or.inl ⟨rfl, rfl⟩

/-- C3 witness: a mutating tool with both LLM calls raising. -/
theorem safety_gate_total_witness :
    ((check_safety "drive_write" [("path", "notes.txt")] (.exn "t") (.exn "u")).allow = true
        ∧ (check_safety "drive_write" [("path", "notes.txt")] (.exn "t") (.exn "u")).reason = "")
    ∨ ((check_safety "drive_write" [("path", "notes.txt")] (.exn "t") (.exn "u")).allow = false
        ∧ (check_safety "drive_write" [("path", "notes.txt")] (.exn "t") (.exn "u")).reason ≠ "") :=
  safety_gate_total "drive_write" [("path", "notes.txt")] (.exn "t") (.exn "u") (by decide)

/-- C6: whenever `check_safety` denies (returns false), the reason is
non-empty and begins with the severity prefix "⚠️ SAFETY_VIOLATION" —
in all three deny cases (deep flagged, deep unparseable, deep call
failed). -/
theorem deny_reason_severity_marker (tool : String) (args : List (String × String))
    (fast deep : CheckOutcome)
    (hd : (check_safety tool args fast deep).allow = false) :
    (check_safety tool args fast deep).reason ≠ ""
    ∧ ∃ rest, (check_safety tool args fast deep).reason = "⚠️ SAFETY_VIOLATION" ++ rest := by
  by_cases hm : mutatingTools.contains tool = true
  · cases hf : parsedSafe fast
    · rcases deep with e | ⟨hu, pr⟩
      · rw [cs_deep_exn tool args fast e hm hf]
        refine ⟨strAppend_ne_empty_left _ _ (by decide),
          ⟨": Safety check failed with error: " ++ e, ?_⟩⟩
        have hsplit : ("⚠️ SAFETY_VIOLATION: Safety check failed with error: " : String) =
            "⚠️ SAFETY_VIOLATION" ++ ": Safety check failed with error: " := by decide
        rw [hsplit, strAppend_assoc]
      · rcases pr with _ | ⟨status, reason⟩
        · rw [cs_deep_parseFail tool args fast hu hm hf]
          have hlit : ("⚠️ SAFETY_VIOLATION: Safety Supervisor failed to parse JSON." : String) ≠ "" := by
            decide
          have hsplit : ("⚠️ SAFETY_VIOLATION: Safety Supervisor failed to parse JSON." : String) =
              "⚠️ SAFETY_VIOLATION" ++ ": Safety Supervisor failed to parse JSON." := by decide
          exact ⟨hlit, ⟨": Safety Supervisor failed to parse JSON.", hsplit⟩⟩
        · by_cases hs : status = some "SAFE"
          · subst hs
            rw [cs_deep_safe tool args fast hu reason hm hf] at hd
            exact absurd hd (by simp)
          · rw [cs_deep_deny tool args fast hu status reason hm hf hs]
            refine ⟨strAppApp_ne_empty _ _ _ (by decide),
              ⟨": The Safety Supervisor blocked this command.\nReason: "
                ++ (reason.getD "Unknown danger"
                  ++ "\n\nYou must find a different, safer approach to achieve your goal."), ?_⟩⟩
            have hsplit : ("⚠️ SAFETY_VIOLATION: The Safety Supervisor blocked this command.\nReason: " : String) =
                "⚠️ SAFETY_VIOLATION" ++ ": The Safety Supervisor blocked this command.\nReason: " := by
              decide
            rw [hsplit, strAppend_assoc, strAppend_assoc]
    · rw [cs_fastSafe tool args fast deep hm hf] at hd
      exact absurd hd (by simp)
  · unfold check_safety at hd
    rw [if_pos hm] at hd
    exact absurd hd (by simp)

/-- C6 witness: deep check flags the call as dangerous. -/
theorem deny_reason_severity_marker_witness :
    (check_safety "repo_commit" [] (.exn "t")
        (.ok true (.parsed (some "DANGEROUS") (some "bad")))).reason ≠ ""
    ∧ ∃ rest, (check_safety "repo_commit" [] (.exn "t")
        (.ok true (.parsed (some "DANGEROUS") (some "bad")))).reason =
          "⚠️ SAFETY_VIOLATION" ++ rest :=
  deny_reason_severity_marker "repo_commit" [] (.exn "t")
    (.ok true (.parsed (some "DANGEROUS") (some "bad"))) (by decide)

/-! ## Supervisor lemmas and claims -/

theorem insertTask_perm (t : Task) (l : List Task) :
    (insertTask t l).Perm (t :: l) := by
  induction l with
  | nil => exact List.Perm.refl _
  | cons u us ih =>
    unfold insertTask
    by_cases h : taskLE t u
    · rw [if_pos h]
    · rw [if_neg h]
      exact (ih.cons u).trans (List.Perm.swap t u us)

theorem sort_pending_perm (l : List Task) : (sort_pending l).Perm l := by
  induction l with
  | nil => exact List.Perm.refl _
  | cons t ts ih => exact (insertTask_perm t (sort_pending ts)).trans (ih.cons t)

theorem restart_not_panic (s : String)
    (h : pyStartswith s "/restart" = true) : pyStartswith s "/panic" = false := by
  unfold pyStartswith at h ⊢
  rw [show ("/panic".data) = ['/', 'p', 'a', 'n', 'i', 'c'] from rfl]
  rw [show ("/restart".data) = ['/', 'r', 'e', 's', 't', 'a', 'r', 't'] from rfl] at h
  generalize hgen : s.data = l at h ⊢
  cases l with
  | nil => simp [List.isPrefixOf] at h
  | cons a l1 =>
    cases l1 with
    | nil => simp [List.isPrefixOf] at h
    | cons b l2 =>
      simp only [List.isPrefixOf, Bool.and_eq_true, beq_iff_eq] at h
      obtain ⟨ha, hb, -⟩ := h
      subst ha
      subst hb
      have hpr : (('p' : Char) == 'r') = false := by decide
      simp [List.isPrefixOf, hpr]

/-- C8: a message whose stripped, lowercased text starts with "/panic"
(hence case-insensitively) makes the router send the warning line, kill
all workers and exit the process with code 1; and since `os._exit` does
not return, the remaining updates of the drain are never processed. -/
theorem panic_command_exits (env : Env) (w : World) (m : Msg)
    (rest : List (Option Msg))
    (ho : w.st.owner_id ≠ none)
    (hp : pyStartswith (pyLower (pyStrip m.text)) "/panic" = true) :
    processUpdate env w (some m) =
      ⟨⟨{ w.st with last_owner_message_at := some env.nowIso }, w.pending⟩,
       [Eff.logChat "in" 1 1 m.text, Eff.send 1 "🛑 PANIC: stopping everything now.",
        Eff.killWorkers, Eff.exitProcess 1], some 1, false⟩
    ∧ processUpdates env w (some m :: rest) = processUpdate env w (some m) := by
  have ht : m.text ≠ "" := by
    intro he
    rw [he] at hp
    exact absurd hp (by decide)
  have h1 : processUpdate env w (some m) =
      ⟨⟨{ w.st with last_owner_message_at := some env.nowIso }, w.pending⟩,
       [Eff.logChat "in" 1 1 m.text, Eff.send 1 "🛑 PANIC: stopping everything now.",
        Eff.killWorkers, Eff.exitProcess 1], some 1, false⟩ := by
    unfold processUpdate
    dsimp only
    rw [if_neg ho, if_neg ht, if_pos hp]
    rfl
  refine ⟨h1, ?_⟩
  unfold processUpdates
  dsimp only
  rw [h1]
  rfl

/-- C8 witness: "/PANIC" from the registered owner, with another update
queued behind it that is never reached. -/
theorem panic_command_exits_witness :
    processUpdate {} { st := { owner_id := some 1, owner_chat_id := some 1 } }
        (some ⟨1, "/PANIC"⟩) =
      ⟨⟨{ ({ owner_id := some 1, owner_chat_id := some 1 } : SupState) with
            last_owner_message_at := some ({} : Env).nowIso }, []⟩,
       [Eff.logChat "in" 1 1 "/PANIC", Eff.send 1 "🛑 PANIC: stopping everything now.",
        Eff.killWorkers, Eff.exitProcess 1], some 1, false⟩
    ∧ processUpdates {} { st := { owner_id := some 1, owner_chat_id := some 1 } }
        [some ⟨1, "/PANIC"⟩, some ⟨1, "/status"⟩] =
      processUpdate {} { st := { owner_id := some 1, owner_chat_id := some 1 } }
        (some ⟨1, "/PANIC"⟩) :=
  panic_command_exits {} { st := { owner_id := some 1, owner_chat_id := some 1 } }
    ⟨1, "/PANIC"⟩ [some ⟨1, "/status"⟩] (by decide) (by decide)

/-- C7: a message starting with "/restart" triggers
`safe_restart("owner_restart", "rescue_and_reset")`; on success the
workers are killed and the process re-execs, on failure the owner is
told the restart was cancelled and neither kill nor re-exec happens. -/
theorem restart_command_flow (env : Env) (w : World) (m : Msg)
    (ho : w.st.owner_id ≠ none)
    (hr : pyStartswith (pyLower (pyStrip m.text)) "/restart" = true) :
    processUpdate env w (some m) =
      ⟨⟨{ w.st with last_owner_message_at := some env.nowIso }, w.pending⟩,
       [Eff.logChat "in" 1 1 m.text, Eff.send 1 "♻️ Restarting (soft).",
        Eff.safeRestartCall "owner_restart" "rescue_and_reset"]
        ++ (if env.safeRestartOk then [Eff.killWorkers, Eff.execRestart]
            else [Eff.send 1 ("⚠️ Restart cancelled: " ++ env.safeRestartMsg)]),
       none, env.safeRestartOk⟩ := by
  have ht : m.text ≠ "" := by
    intro he
    rw [he] at hr
    exact absurd hr (by decide)
  have hnp : pyStartswith (pyLower (pyStrip m.text)) "/panic" = false :=
    restart_not_panic _ hr
  unfold processUpdate
  dsimp only
  rw [if_neg ho, if_neg ht,
      if_neg (by rw [hnp]; exact Bool.false_ne_true), if_pos hr]
  cases hok : env.safeRestartOk with
  | true => rfl
  | false => rfl

/-- C7 witness: "/restart" with `safe_restart` reporting failure — the
owner is notified, no worker kill, no re-exec. -/
theorem restart_command_flow_witness :
    processUpdate { safeRestartOk := false, safeRestartMsg := "restart lock held" }
        { st := { owner_id := some 1, owner_chat_id := some 1 } } (some ⟨1, "/restart"⟩) =
      ⟨⟨{ ({ owner_id := some 1, owner_chat_id := some 1 } : SupState) with
            last_owner_message_at :=
              some ({ safeRestartOk := false, safeRestartMsg := "restart lock held" } : Env).nowIso },
         []⟩,
       [Eff.logChat "in" 1 1 "/restart", Eff.send 1 "♻️ Restarting (soft).",
        Eff.safeRestartCall "owner_restart" "rescue_and_reset"]
        ++ (if ({ safeRestartOk := false, safeRestartMsg := "restart lock held" } : Env).safeRestartOk
            then [Eff.killWorkers, Eff.execRestart]
            else [Eff.send 1 ("⚠️ Restart cancelled: "
              ++ ({ safeRestartOk := false, safeRestartMsg := "restart lock held" } : Env).safeRestartMsg)]),
       none, ({ safeRestartOk := false, safeRestartMsg := "restart lock held" } : Env).safeRestartOk⟩ :=
  restart_command_flow { safeRestartOk := false, safeRestartMsg := "restart lock held" }
    { st := { owner_id := some 1, owner_chat_id := some 1 } } ⟨1, "/restart"⟩
    (by decide) (by decide)

/-- C4 (counterexample): app.py fixes `chat_id = 1` and never reads the
transport-level sender id, so the first message from sender chat id 100
records `owner_chat_id = 1`, not 100; and once an owner is recorded, a
message from a different sender (200) still changes state (it updates
`last_owner_message_at` and is routed) rather than being ignored. -/
theorem owner_registration_sender_ignored :
    (processUpdate {} { st := {} } (some ⟨100, "hi"⟩)).world.st.owner_chat_id ≠ some 100
    ∧ (processUpdate {} { st := {} } (some ⟨100, "hi"⟩)).world.st.owner_chat_id = some 1
    ∧ (processUpdate { nowIso := "T2" }
        { st := { owner_id := some 1, owner_chat_id := some 1,
                  last_owner_message_at := some "T1" } }
        (some ⟨200, "hello"⟩)).world.st ≠
      { owner_id := some 1, owner_chat_id := some 1, last_owner_message_at := some "T1" }
    ∧ (processUpdate { nowIso := "T2" }
        { st := { owner_id := some 1, owner_chat_id := some 1,
                  last_owner_message_at := some "T1" } }
        (some ⟨200, "hello"⟩)).effs ≠ [] := by
  decide

set_option maxHeartbeats 1600000 in
/-- C4 (amended): on a fresh install the first inbound message records
the owner with `owner_id = 1` and `owner_chat_id = 1` — the local chat
bridge's fixed chat id, irrespective of the transport-level sender id —
and is answered with "✅ Owner registered. Ouroboros online.".  After an
owner is recorded there is no sender-based filtering: every subsequent
message updates `last_owner_message_at` and is routed (its first effect
is the inbound chat-log entry). -/
theorem owner_registration_fixed_ids (env : Env) (w : World) (m : Msg) :
    (w.st.owner_id = none →
      (processUpdate env w (some m)).world.st.owner_id = some 1
      ∧ (processUpdate env w (some m)).world.st.owner_chat_id = some 1
      ∧ (processUpdate env w (some m)).effs =
          [Eff.logChat "in" 1 1 m.text,
           Eff.send 1 "✅ Owner registered. Ouroboros online."])
    ∧ (w.st.owner_id ≠ none →
      (processUpdate env w (some m)).world.st.last_owner_message_at = some env.nowIso
      ∧ (processUpdate env w (some m)).effs.head? = some (Eff.logChat "in" 1 1 m.text)) := by
  constructor
  · intro ho
    unfold processUpdate
    dsimp only
    rw [if_pos ho]
    exact ⟨rfl, rfl, rfl⟩
  · intro ho
    unfold processUpdate
    dsimp only
    rw [if_neg ho]
    refine ⟨?_, ?_⟩ <;> (repeat' split) <;> rfl

/-- C4 witness: registration from sender 100 on a fresh state, then a
later message from sender 200 updating the owner-activity timestamp. -/
theorem owner_registration_fixed_ids_witness :
    ((processUpdate {} { st := {} } (some ⟨100, "hi"⟩)).world.st.owner_id = some 1
      ∧ (processUpdate {} { st := {} } (some ⟨100, "hi"⟩)).world.st.owner_chat_id = some 1
      ∧ (processUpdate {} { st := {} } (some ⟨100, "hi"⟩)).effs =
          [Eff.logChat "in" 1 1 "hi",
           Eff.send 1 "✅ Owner registered. Ouroboros online."])
    ∧ ((processUpdate { nowIso := "T2" }
          { st := { owner_id := some 1, owner_chat_id := some 1,
                    last_owner_message_at := some "T1" } }
          (some ⟨200, "hello"⟩)).world.st.last_owner_message_at =
        some ({ nowIso := "T2" } : Env).nowIso
      ∧ (processUpdate { nowIso := "T2" }
          { st := { owner_id := some 1, owner_chat_id := some 1,
                    last_owner_message_at := some "T1" } }
          (some ⟨200, "hello"⟩)).effs.head? = some (Eff.logChat "in" 1 1 "hello")) :=
  ⟨(owner_registration_fixed_ids {} { st := {} } ⟨100, "hi"⟩).1 (by decide),
   (owner_registration_fixed_ids { nowIso := "T2" }
      { st := { owner_id := some 1, owner_chat_id := some 1,
                last_owner_message_at := some "T1" } } ⟨200, "hello"⟩).2 (by decide)⟩

/-- C10: the first-contact message is never interpreted further — even
when its text is a command such as "/panic" or "/restart", processing
stops right after the welcome reply: the step's effects are exactly the
chat-log entry and the welcome send, no exit, no re-exec, and the
pending queue and mode flags are untouched. -/
theorem first_contact_stops_processing (env : Env) (w : World) (m : Msg)
    (ho : w.st.owner_id = none) :
    processUpdate env w (some m) =
      ⟨⟨{ w.st with owner_id := some 1, owner_chat_id := some 1,
                    last_owner_message_at := some env.nowIso }, w.pending⟩,
       [Eff.logChat "in" 1 1 m.text,
        Eff.send 1 "✅ Owner registered. Ouroboros online."], none, false⟩ := by
  unfold processUpdate
  dsimp only
  rw [if_pos ho]

/-- C10 witness: a first message reading "/panic" only registers the
owner. -/
theorem first_contact_stops_processing_witness :
    processUpdate {} { st := {} } (some ⟨100, "/panic"⟩) =
      ⟨⟨{ ({} : SupState) with owner_id := some 1, owner_chat_id := some 1,
                               last_owner_message_at := some ({} : Env).nowIso }, []⟩,
       [Eff.logChat "in" 1 1 "/panic",
        Eff.send 1 "✅ Owner registered. Ouroboros online."], none, false⟩ :=
  first_contact_stops_processing {} { st := {} } ⟨100, "/panic"⟩ (by decide)

/-- C5: "/evolve off" sets `evolution_mode_enabled` to false, leaves a
pending list that is a permutation of the non-evolution pending tasks
(zero evolution tasks remain, every non-evolution task is preserved,
re-sorted by priority and creation time), and persists an
"evolve_off" queue snapshot — for every starting pending list. -/
theorem evolve_off_purges_evolution (env : Env) (w : World) (m : Msg)
    (ho : w.st.owner_id ≠ none)
    (hc : pyLower (pyStrip m.text) = "/evolve off") :
    (processUpdate env w (some m)).world.st.evolution_mode_enabled = false
    ∧ ((processUpdate env w (some m)).world.pending).Perm
        (w.pending.filter (fun t => t.type ≠ "evolution"))
    ∧ (∀ t ∈ (processUpdate env w (some m)).world.pending, t.type ≠ "evolution")
    ∧ (∀ t ∈ w.pending, t.type ≠ "evolution" →
        t ∈ (processUpdate env w (some m)).world.pending)
    ∧ Eff.persistSnapshot "evolve_off" ∈ (processUpdate env w (some m)).effs := by
  have ht : m.text ≠ "" := by
    intro he
    rw [he] at hc
    exact absurd hc (by decide)
  have hred : processUpdate env w (some m) =
      ⟨⟨{ w.st with last_owner_message_at := some env.nowIso,
                    evolution_mode_enabled := false },
         sort_pending (w.pending.filter (fun t => t.type ≠ "evolution"))⟩,
       [Eff.logChat "in" 1 1 m.text, Eff.persistSnapshot "evolve_off",
        Eff.send 1 "🧬 Evolution: OFF"], none, false⟩ := by
    unfold processUpdate
    dsimp only
    rw [if_neg ho, if_neg ht, hc]
    rfl
  rw [hred]
  refine ⟨rfl, sort_pending_perm _, ?_, ?_, by simp⟩
  · intro t htm
    have hmem := (sort_pending_perm
      (w.pending.filter (fun t => t.type ≠ "evolution"))).mem_iff.mp htm
    exact of_decide_eq_true (List.mem_filter.mp hmem).2
  · intro t htm hne
    exact (sort_pending_perm _).mem_iff.mpr
      (List.mem_filter.mpr ⟨htm, decide_eq_true hne⟩)

/-- C5 witness: three pending evolution tasks among two others. -/
theorem evolve_off_purges_evolution_witness :
    (processUpdate {} { st := { owner_id := some 1, owner_chat_id := some 1 },
                        pending := [⟨"a", "evolution", 0, "t1"⟩, ⟨"b", "chat", 1, "t2"⟩,
                                    ⟨"c", "evolution", 0, "t3"⟩, ⟨"d", "review", 2, "t4"⟩,
                                    ⟨"e", "evolution", 5, "t5"⟩] }
      (some ⟨1, "/evolve off"⟩)).world.st.evolution_mode_enabled = false
    ∧ ((processUpdate {} { st := { owner_id := some 1, owner_chat_id := some 1 },
                           pending := [⟨"a", "evolution", 0, "t1"⟩, ⟨"b", "chat", 1, "t2"⟩,
                                       ⟨"c", "evolution", 0, "t3"⟩, ⟨"d", "review", 2, "t4"⟩,
                                       ⟨"e", "evolution", 5, "t5"⟩] }
      (some ⟨1, "/evolve off"⟩)).world.pending).Perm
        (([⟨"a", "evolution", 0, "t1"⟩, ⟨"b", "chat", 1, "t2"⟩,
           ⟨"c", "evolution", 0, "t3"⟩, ⟨"d", "review", 2, "t4"⟩,
           ⟨"e", "evolution", 5, "t5"⟩] : List Task).filter
          (fun t => t.type ≠ "evolution"))
    ∧ (∀ t ∈ (processUpdate {} { st := { owner_id := some 1, owner_chat_id := some 1 },
                                 pending := [⟨"a", "evolution", 0, "t1"⟩, ⟨"b", "chat", 1, "t2"⟩,
                                             ⟨"c", "evolution", 0, "t3"⟩, ⟨"d", "review", 2, "t4"⟩,
                                             ⟨"e", "evolution", 5, "t5"⟩] }
      (some ⟨1, "/evolve off"⟩)).world.pending, t.type ≠ "evolution")
    ∧ (∀ t ∈ ([⟨"a", "evolution", 0, "t1"⟩, ⟨"b", "chat", 1, "t2"⟩,
               ⟨"c", "evolution", 0, "t3"⟩, ⟨"d", "review", 2, "t4"⟩,
               ⟨"e", "evolution", 5, "t5"⟩] : List Task), t.type ≠ "evolution" →
        t ∈ (processUpdate {} { st := { owner_id := some 1, owner_chat_id := some 1 },
                                pending := [⟨"a", "evolution", 0, "t1"⟩, ⟨"b", "chat", 1, "t2"⟩,
                                            ⟨"c", "evolution", 0, "t3"⟩, ⟨"d", "review", 2, "t4"⟩,
                                            ⟨"e", "evolution", 5, "t5"⟩] }
          (some ⟨1, "/evolve off"⟩)).world.pending)
    ∧ Eff.persistSnapshot "evolve_off" ∈
        (processUpdate {} { st := { owner_id := some 1, owner_chat_id := some 1 },
                            pending := [⟨"a", "evolution", 0, "t1"⟩, ⟨"b", "chat", 1, "t2"⟩,
                                        ⟨"c", "evolution", 0, "t3"⟩, ⟨"d", "review", 2, "t4"⟩,
                                        ⟨"e", "evolution", 5, "t5"⟩] }
          (some ⟨1, "/evolve off"⟩)).effs :=
  evolve_off_purges_evolution {} { st := { owner_id := some 1, owner_chat_id := some 1 },
                                   pending := [⟨"a", "evolution", 0, "t1"⟩, ⟨"b", "chat", 1, "t2"⟩,
                                               ⟨"c", "evolution", 0, "t3"⟩, ⟨"d", "review", 2, "t4"⟩,
                                               ⟨"e", "evolution", 5, "t5"⟩] }
    ⟨1, "/evolve off"⟩ (by decide) (by decide)

theorem processUpdate_all_phase6 (env : Env) (w : World) (u : Option Msg) :
    ((processUpdate env w u).effs.all (fun e => phaseIdx e == 6)) = true := by
  rcases u with _ | m
  · rfl
  · unfold processUpdate
    dsimp only
    by_cases h1 : w.st.owner_id = none
    · rw [if_pos h1]
      rfl
    · rw [if_neg h1]
      by_cases h2 : m.text = ""
      · rw [if_pos h2]
        rfl
      · rw [if_neg h2]
        set low := pyLower (pyStrip m.text) with hlow
        by_cases h3 : pyStartswith low "/panic" = true
        · rw [if_pos h3]
          rfl
        · rw [if_neg h3]
          by_cases h4 : pyStartswith low "/restart" = true
          · rw [if_pos h4]
            by_cases h4b : env.safeRestartOk = true
            · rw [if_pos h4b]
              rfl
            · rw [if_neg h4b]
              rfl
          · rw [if_neg h4]
            by_cases h5 : pyStartswith low "/review" = true
            · rw [if_pos h5]
              rfl
            · rw [if_neg h5]
              by_cases h6 : pyStartswith low "/evolve" = true
              · rw [if_pos h6]
                by_cases h6b : (!(((pySplitWs low).drop 1).headD "on" == "off"
                    || ((pySplitWs low).drop 1).headD "on" == "stop"
                    || ((pySplitWs low).drop 1).headD "on" == "0")) = true
                · rw [if_pos h6b]
                  rfl
                · rw [if_neg h6b]
                  rfl
              · rw [if_neg h6]
                by_cases h7 : pyStartswith low "/bg" = true
                · rw [if_pos h7]
                  by_cases h7b : ((pySplitWs low).drop 1).headD "status" = "start"
                      ∨ ((pySplitWs low).drop 1).headD "status" = "on"
                      ∨ ((pySplitWs low).drop 1).headD "status" = "1"
                  · rw [if_pos h7b]
                    rfl
                  · rw [if_neg h7b]
                    by_cases h7c : ((pySplitWs low).drop 1).headD "status" = "stop"
                        ∨ ((pySplitWs low).drop 1).headD "status" = "off"
                        ∨ ((pySplitWs low).drop 1).headD "status" = "0"
                    · rw [if_pos h7c]
                      rfl
                    · rw [if_neg h7c]
                      rfl
                · rw [if_neg h7]
                  by_cases h8 : pyStartswith low "/status" = true
                  · rw [if_pos h8]
                    rfl
                  · rw [if_neg h8]
                    by_cases h9 : env.agentBusy = true
                    · rw [if_pos h9]
                      rfl
                    · rw [if_neg h9]
                      rfl

theorem processUpdates_all_phase6 (env : Env) :
    ∀ (us : List (Option Msg)) (w : World),
      ((processUpdates env w us).effs.all (fun e => phaseIdx e == 6)) = true := by
  intro us
  induction us with
  | nil => intro w; rfl
  | cons u us' ih =>
    intro w
    unfold processUpdates
    dsimp only
    split
    · exact processUpdate_all_phase6 env w u
    · dsimp only
      rw [List.all_append, processUpdate_all_phase6 env w u, ih _]
      rfl

theorem chain_one_tail (n : Nat) :
    ((List.replicate n 1 ++ [2, 3, 4, 5] : List Nat)).Chain' (· ≤ ·) := by
  induction n with
  | zero => simp [List.chain'_cons]
  | succ k ih =>
    rw [List.replicate_succ, List.cons_append, List.chain'_cons']
    refine ⟨?_, ih⟩
    intro b hb
    rcases k with _ | k'
    · simp at hb
      omega
    · rw [List.replicate_succ, List.cons_append] at hb
      simp at hb
      omega

theorem chain_pre (n : Nat) :
    (((0 : Nat) :: 0 :: (List.replicate n 1 ++ [2, 3, 4, 5]))).Chain' (· ≤ ·) := by
  rw [List.chain'_cons']
  refine ⟨fun b hb => by simp at hb; omega, ?_⟩
  rw [List.chain'_cons']
  refine ⟨?_, chain_one_tail n⟩
  intro b hb
  rcases n with _ | k
  · simp at hb
    omega
  · rw [List.replicate_succ, List.cons_append] at hb
    simp at hb
    omega

theorem chain_all6 : ∀ (l : List Nat), (∀ x ∈ l, x = 6) → l.Chain' (· ≤ ·) := by
  intro l
  induction l with
  | nil => intro _; exact List.chain'_nil
  | cons a l' ih =>
    intro h
    rw [List.chain'_cons']
    refine ⟨?_, ih (fun x hx => h x (List.mem_cons_of_mem a hx))⟩
    intro b hb
    have hb' : b ∈ l' := List.mem_of_mem_head? hb
    rw [h a (List.mem_cons_self a l'), h b (List.mem_cons_of_mem a hb')]

/-- C9: within one supervisor tick the six phases occur in order — the
event queue is fully drained to the dispatcher (every queued event,
phase 1), then timeouts are enforced (2), then the evolution enqueue
runs (3), then tasks are assigned (4), then the queue snapshot is
persisted (5), and only then is the chat inbox drained and routed (6):
the phase indices along the tick's effect trace are monotone, phases
2–5 each occur exactly where stated, and the number of dispatch effects
equals the number of queued events. -/
theorem tick_phase_order (env : Env) (w : World) (inp : TickInput) :
    (((tick env w inp).effs.map phaseIdx).Chain' (· ≤ ·))
    ∧ List.Sublist
        [Eff.enforceTimeouts, Eff.enqueueEvolution, Eff.assignTasks,
         Eff.persistSnapshot "main_loop"] (tick env w inp).effs
    ∧ (tick env w inp).effs.count Eff.dispatchEvent = inp.events := by
  have hrout6 : ∀ e ∈ (processUpdates env w inp.inbox).effs, phaseIdx e = 6 := by
    intro e he
    exact eq_of_beq (List.all_eq_true.mp (processUpdates_all_phase6 env inp.inbox w) e he)
  have heffs : (tick env w inp).effs =
      ([Eff.rotateChatLog, Eff.ensureHealthy]
        ++ List.replicate inp.events Eff.dispatchEvent
        ++ [Eff.enforceTimeouts, Eff.enqueueEvolution, Eff.assignTasks,
            Eff.persistSnapshot "main_loop"])
      ++ (processUpdates env w inp.inbox).effs := rfl
  have hmap : List.map phaseIdx ([Eff.rotateChatLog, Eff.ensureHealthy]
      ++ List.replicate inp.events Eff.dispatchEvent
      ++ [Eff.enforceTimeouts, Eff.enqueueEvolution, Eff.assignTasks,
          Eff.persistSnapshot "main_loop"]) =
      0 :: 0 :: (List.replicate inp.events 1 ++ [2, 3, 4, 5]) := by
    simp [phaseIdx, List.map_append, List.map_replicate]
  refine ⟨?_, ?_, ?_⟩
  · rw [heffs, List.map_append, List.chain'_append, hmap]
    refine ⟨chain_pre inp.events, ?_, ?_⟩
    · refine chain_all6 _ ?_
      intro x hx
      rcases List.mem_map.mp hx with ⟨e, he, rfl⟩
      exact hrout6 e he
    · intro x hx y hy
      have hy' : y ∈ List.map phaseIdx (processUpdates env w inp.inbox).effs :=
        List.mem_of_mem_head? hy
      rcases List.mem_map.mp hy' with ⟨e, he, rfl⟩
      have hy6 : phaseIdx e = 6 := hrout6 e he
      have hx' : x ∈ ((0 : Nat) :: 0 :: (List.replicate inp.events 1 ++ [2, 3, 4, 5])) :=
        List.mem_of_mem_getLast? hx
      simp only [List.mem_cons, List.mem_append, List.mem_replicate,
        List.not_mem_nil, or_false] at hx'
      omega
  · rw [heffs]
    exact List.Sublist.trans (List.sublist_append_right _ _)
      (List.sublist_append_left _ _)
  · rw [heffs]
    simp only [List.count_append]
    have hc1 : List.count Eff.dispatchEvent [Eff.rotateChatLog, Eff.ensureHealthy] = 0 := by
      decide
    have hc2 : List.count Eff.dispatchEvent
        [Eff.enforceTimeouts, Eff.enqueueEvolution, Eff.assignTasks,
         Eff.persistSnapshot "main_loop"] = 0 := by decide
    have hc3 : List.count Eff.dispatchEvent
        (List.replicate inp.events Eff.dispatchEvent) = inp.events :=
      List.count_replicate_self _ _
    have hc4 : List.count Eff.dispatchEvent (processUpdates env w inp.inbox).effs = 0 := by
      rw [List.count_eq_zero]
      intro hmem
      have h6 := hrout6 _ hmem
      simp [phaseIdx] at h6
    rw [hc1, hc2, hc3, hc4]
    omega

end Ouroboros

